import Mathlib

/-!
Shallow embedding of `src/exitos/rootfs/llm/LLMEngine.py` (class `LLMEngine`):
the per-session conversation store, the tool registry, the bounded
tool-execution loop of `get_response`, and the exception-classification
tail of `get_response`.  Python dicts with optional keys are embedded as
structures of `Option` fields (a missing key is `none`; `d.get(k, dflt)`
is `Option.getD`), unguarded `d[k]` indexing on a missing key raises
`KeyError`, and the module-level `logger` (which is `None` until
`init_routes` installs one) is embedded as a `loggerSet : Bool` flag:
an attribute access `logger.warning`/`logger.error` performed without the
`if logger:` guard raises `AttributeError` when the logger is unset.
-/

namespace LLMEngine

/-- Tool-call arguments: the mapping passed as `func(**arguments)`. -/
abbrev Args := List (String × String)

/-- The `tool_call["function"]` sub-dict: both keys may be missing. -/
structure ToolCallFunction where
  name : Option String
  arguments : Option Args
deriving DecidableEq

/-- One entry of the assistant message's `tool_calls` list; the
`"function"` key may be missing. -/
structure ToolCall where
  function : Option ToolCallFunction
deriving DecidableEq

/-- A chat message dict as stored in `self.conversations[session_id]`:
every key may be missing, since the raw backend message is appended
verbatim (line 120 of the source). -/
structure Message where
  role : Option String
  content : Option String
  tool_calls : Option (List ToolCall)
deriving DecidableEq

/-- The decoded response body `data = res.json()`: only the `"message"`
key is ever read, via `data.get("message", {})`. -/
structure Resp where
  message : Option Message
deriving DecidableEq

/-- The Python exceptions distinguished by `get_response`'s `except`
chain, as disjoint cases (the chain catches `requests.exceptions.ConnectionError`
first, then `HTTPError`, `Timeout`, `RequestException`, then `Exception`;
`requestException` stands for a `RequestException` that is none of the
first three, e.g. a JSON decode failure or a redirect error, and
`keyError` / `attributeError` for the plain-`Exception` leftovers raised
inside the loop body itself). -/
inductive Exc where
  | connectionError
  | httpError (status : Nat) (body : String)
  | timeoutError
  | requestException
  | keyError
  | attributeError
deriving DecidableEq

/-- A registered tool: `self.tools[name] = {"definition": …, "func": func}`.
The definition's advertised fields are kept; the callable is embedded as a
function returning `Except errText resultText` — `.ok r` is a normal return
whose `str(result)` is `r`, `.error e` is any exception whose `str(e)` is `e`
(a keyword-argument mismatch of `func(**arguments)` raises at the call and
is caught by the same handler, so it is also an `.error`). -/
structure ToolEntry where
  description : String
  parameters : String
  func : Args → Except String String

/-- The engine state: the fields of `LLMEngine.__init__` that the claims
touch, plus the module-level logger presence. -/
structure Engine where
  model : String
  ollama_base_url : String
  system_prompt : String
  conversations : String → Option (List Message)
  tools : List (String × ToolEntry)
  loggerSet : Bool

/-- The system-prompt literal of `__init__`. -/
def defaultSystemPrompt : String :=
  "Ets un expert en gestió energètica de la plataforma eXiT. " ++
  "La teva missió és ajudar l'usuari a entendre la seva configuració d'autoconsum, " ++
  "optimització de bateries i generació solar. Respon de manera amable, clara i professional, " ++
  "preferiblement en català. Si l'usuari no coneix el tema, explica els conceptes de manera senzilla."

/-- The module state right after `llm_engine = LLMEngine()` (defaults from
the environment fall back to the literals; the logger global is still `None`). -/
def initEngine : Engine :=
  { model := "llama3.1:latest"
    ollama_base_url := "http://localhost:11434"
    system_prompt := defaultSystemPrompt
    conversations := fun _ => none
    tools := []
    loggerSet := false }

/-- `{"role": "system", "content": prompt}`. -/
def systemMessage (prompt : String) : Message := ⟨some "system", some prompt, none⟩

/-- `{"role": "user", "content": text}`. -/
def userMessage (text : String) : Message := ⟨some "user", some text, none⟩

/-- `{"role": "tool", "content": text}`. -/
def toolMessage (text : String) : Message := ⟨some "tool", some text, none⟩

/-- `message = data.get("message", {})` when the key is missing. -/
def emptyMessage : Message := ⟨none, none, none⟩

/-- Python-dict insert on the assoc list backing `self.tools`: an existing
key keeps its position and gets the new value, a new key is appended
(insertion order, as `dict` preserves it for the `values()` iteration). -/
def dictInsert : List (String × ToolEntry) → String → ToolEntry → List (String × ToolEntry)
  | [], n, t => [(n, t)]
  | (k, v) :: rest, n, t =>
      if k = n then (k, t) :: rest else (k, v) :: dictInsert rest n t

/-- Python-dict lookup on the assoc list backing `self.tools`. -/
def toolsLookup : List (String × ToolEntry) → String → Option ToolEntry
  | [], _ => none
  | (k, v) :: rest, n => if k = n then some v else toolsLookup rest n

/-- `register_tool(self, name, func, description, parameters)`:
`self.tools[name] = {…}` — a plain dict assignment, silently replacing any
existing entry.  The guarded `logger.info` at the end is a no-op here. -/
def register_tool (e : Engine) (name : String) (t : ToolEntry) : Engine :=
  { e with tools := dictInsert e.tools name t }

/-- The sentinel returned when the `for _ in range(5)` loop exhausts
(line 165 of the source). -/
def iterationLimitText : String :=
  "He assolit el límit d'iteracions d'eines sense resposta final."

/-- The generic text of the outermost `except Exception` handler
(line 197 of the source). -/
def unexpectedErrorText : String :=
  "Hi ha hagut un error inesperat processant la teva consulta."

/-- The `except` chain of `get_response` (lines 167–197), as the string it
returns for each exception case. -/
def classify (e : Engine) : Exc → String
  | .connectionError =>
      "❌ No puc connectar amb Ollama a " ++ e.ollama_base_url ++
      ". Verifica que Ollama està executant-se i que la URL és correcta."
  | .httpError status body =>
      if status = 404 then
        "❌ Model '" ++ e.model ++ "' no trobat. Assegura't que el model està descarregat a Ollama."
      else if status = 405 then
        "❌ Error 405: Endpoint incorrecte. Verifica que Ollama està actualitzat i suporta /api/chat"
      else
        "Error HTTP " ++ toString status ++ ": " ++ body
  | .timeoutError =>
      "⏱️ El servidor Ollama està trigant massa. Pot ser que el model sigui massa gran o el servidor estigui ocupat."
  | .requestException =>
      "Ho sento, no puc connectar amb el servidor Ollama. Verifica la configuració."
  | .keyError => unexpectedErrorText
  | .attributeError => unexpectedErrorText

/-- The inner `for tool_call in tool_calls` loop (lines 132–163): returns
the history with the tool-result messages appended so far, and `some exc`
when an exception escaped the loop body (the Python list mutations made
before the exception persist, hence the history is returned in both cases).

Source order is kept: `tool_call["function"]["name"]` and
`tool_call["function"]["arguments"]` are read (raising `KeyError` on a
missing key) before the registry membership test.  On the two failure
branches the source logs without the `if logger:` guard (lines 146 and
159), so an unset logger raises `AttributeError` there. -/
def processToolCalls (e : Engine) :
    List ToolCall → List Message → List Message × Option Exc
  | [], hist => (hist, none)
  | tc :: rest, hist =>
      match tc.function with
      | none => (hist, some .keyError)
      | some fn =>
        match fn.name with
        | none => (hist, some .keyError)
        | some function_name =>
          match fn.arguments with
          | none => (hist, some .keyError)
          | some arguments =>
            match toolsLookup e.tools function_name with
            | some entry =>
                match entry.func arguments with
                | .ok result_str =>
                    processToolCalls e rest (hist ++ [toolMessage result_str])
                | .error emsg =>
                    if e.loggerSet then
                      processToolCalls e rest (hist ++
                        [toolMessage ("Error executing tool " ++ function_name ++ ": " ++ emsg)])
                    else (hist, some .attributeError)
            | none =>
                if e.loggerSet then
                  processToolCalls e rest (hist ++
                    [toolMessage ("Error: Tool '" ++ function_name ++ "' not found.")])
                else (hist, some .attributeError)

/-- Outcome of the `for _ in range(5)` loop. -/
inductive TurnOutcome where
  | final (text : String)
  | exhausted
  | raised (exc : Exc)
deriving DecidableEq

/-- One backend interaction per loop iteration: `requests.post` +
`raise_for_status` + `res.json()`, indexed by how many calls were made
before it.  `.error exc` is any exception raised by that triple. -/
abbrev Backend := Nat → Except Exc Resp

/-- The `for _ in range(5)` loop (lines 90–165) on the remaining fuel:
returns the outcome, the session history as mutated so far, and the
number of backend calls made. -/
def runRounds (e : Engine) (backend : Backend) :
    Nat → Nat → List Message → TurnOutcome × List Message × Nat
  | 0, calls, hist => (.exhausted, hist, calls)
  | fuel + 1, calls, hist =>
      match backend calls with
      | .error exc => (.raised exc, hist, calls + 1)
      | .ok data =>
          let message := data.message.getD emptyMessage
          let assistant_content := message.content.getD ""
          let tool_calls := message.tool_calls.getD []
          let hist := hist ++ [message]
          if tool_calls.isEmpty then
            (.final assistant_content, hist, calls + 1)
          else
            match processToolCalls e tool_calls hist with
            | (hist2, some exc) => (.raised exc, hist2, calls + 1)
            | (hist2, none) => runRounds e backend fuel (calls + 1) hist2

/-- The string `get_response` returns for each loop outcome: the final
content (line 126), the iteration-limit sentinel (line 165), or the
classified exception text (lines 167–197). -/
def outcomeText (e : Engine) : TurnOutcome → String
  | .final t => t
  | .exhausted => iterationLimitText
  | .raised exc => classify e exc

/-- `get_response(self, user_input, session_id)` (lines 66–197): seed the
session if absent, append the user message, run the bounded loop, write the
(in-place mutated) history back, and map the outcome to the returned string.
It returns a string in every case: the `try` spans the whole body, so no
exception escapes to the caller. -/
def get_response (e : Engine) (user_input session_id : String)
    (backend : Backend) : String × Engine :=
  let hist0 := (e.conversations session_id).getD [systemMessage e.system_prompt]
  let hist1 := hist0 ++ [userMessage user_input]
  let r := runRounds e backend 5 0 hist1
  (outcomeText e r.1,
   { e with conversations :=
       fun s => if s = session_id then some r.2.1 else e.conversations s })

/-- The number of backend calls `get_response` makes. -/
def backendCalls (e : Engine) (user_input session_id : String)
    (backend : Backend) : Nat :=
  let hist0 := (e.conversations session_id).getD [systemMessage e.system_prompt]
  (runRounds e backend 5 0 (hist0 ++ [userMessage user_input])).2.2

/-- `clear_conversation(self, session_id)` (lines 199–208). -/
def clear_conversation (e : Engine) (session_id : String) : Bool × Engine :=
  match e.conversations session_id with
  | some _ =>
      (true,
       { e with conversations :=
           fun s => if s = session_id then some [systemMessage e.system_prompt]
                    else e.conversations s })
  | none => (false, e)

/-- The operations the embedding exposes on the engine state. -/
inductive Op where
  | turn (session_id user_input : String) (backend : Backend)
  | clear (session_id : String)
  | register (name : String) (t : ToolEntry)

/-- State effect of one operation. -/
def applyOp (e : Engine) : Op → Engine
  | .turn sid input backend => (get_response e input sid backend).2
  | .clear sid => (clear_conversation e sid).2
  | .register n t => register_tool e n t

/-- State effect of a sequence of operations. -/
def applyOps (e : Engine) : List Op → Engine
  | [] => e
  | op :: rest => applyOps (applyOp e op) rest

/-- `op` is a clear of session `sid` (the one operation allowed to shrink
that session's history). -/
def clears (sid : String) : Op → Bool
  | .clear s => s == sid
  | _ => false

/-- A backend round reply that is a decoded message with a non-empty,
structurally well-formed `tool_calls` list (every entry has the
`"function"`, `"name"` and `"arguments"` keys). -/
def wfToolCall (tc : ToolCall) : Bool :=
  match tc.function with
  | some fn => fn.name.isSome && fn.arguments.isSome
  | none => false

/-- The reply of one backend call has non-empty, well-formed tool calls. -/
def toolRound (r : Except Exc Resp) : Bool :=
  match r with
  | .ok data =>
      let tcs := (data.message.getD emptyMessage).tool_calls.getD []
      !tcs.isEmpty && tcs.all wfToolCall
  | .error _ => false

/-! ### Helper lemmas about the inner tool loop -/

/-- With a logger installed, dispatching one structurally well-formed tool
call appends exactly one tool message and moves on to the rest of the list
— whether the name is registered, the callable returns, or it raises. -/
theorem processToolCalls_cons_wf (e : Engine) (he : e.loggerSet = true)
    (tc : ToolCall) (hw : wfToolCall tc = true) (rest : List ToolCall)
    (hist : List Message) :
    ∃ s, processToolCalls e (tc :: rest) hist =
      processToolCalls e rest (hist ++ [toolMessage s]) := by
  rcases tc with ⟨fn⟩
  rcases fn with _ | ⟨nm, args⟩
  · simp [wfToolCall] at hw
  rcases nm with _ | nm
  · simp [wfToolCall] at hw
  rcases args with _ | args
  · simp [wfToolCall] at hw
  rcases hl : toolsLookup e.tools nm with _ | entry
  · exact ⟨"Error: Tool '" ++ nm ++ "' not found.", by
      simp only [processToolCalls, hl, he, if_true]⟩
  · rcases hf : entry.func args with emsg | r
    · exact ⟨"Error executing tool " ++ nm ++ ": " ++ emsg, by
        simp only [processToolCalls, hl, hf, he, if_true]⟩
    · exact ⟨r, by simp only [processToolCalls, hl, hf]⟩

/-- Dispatching a structurally malformed tool call raises `KeyError` at
once: nothing is appended for it, and the rest of the round's calls are
not dispatched. -/
theorem processToolCalls_cons_notwf (e : Engine) (tc : ToolCall)
    (hw : wfToolCall tc = false) (rest : List ToolCall) (hist : List Message) :
    processToolCalls e (tc :: rest) hist = (hist, some .keyError) := by
  rcases tc with ⟨fn⟩
  rcases fn with _ | ⟨nm, args⟩
  · rfl
  rcases nm with _ | nm
  · rfl
  rcases args with _ | args
  · rfl
  · simp [wfToolCall] at hw

/-- The inner loop only ever appends to the history it is given. -/
theorem processToolCalls_fst_prefix (e : Engine) :
    ∀ (tcs : List ToolCall) (hist : List Message),
      ∃ t, (processToolCalls e tcs hist).1 = hist ++ t := by
  intro tcs
  induction tcs with
  | nil => intro hist; exact ⟨[], by simp [processToolCalls]⟩
  | cons tc rest ih =>
      intro hist
      rcases hw : wfToolCall tc with _ | _
      · rw [processToolCalls_cons_notwf e tc hw rest hist]
        exact ⟨[], by simp⟩
      · rcases hL : e.loggerSet with _ | _
        · -- logger unset: the call either appends one message and recurses,
          -- or stops with an exception; trace the branches directly
          rcases tc with ⟨fn⟩
          rcases fn with _ | ⟨nm, args⟩
          · exact ⟨[], by simp [processToolCalls]⟩
          rcases nm with _ | nm
          · exact ⟨[], by simp [processToolCalls]⟩
          rcases args with _ | args
          · exact ⟨[], by simp [processToolCalls]⟩
          rcases hl : toolsLookup e.tools nm with _ | entry
          · exact ⟨[], by simp [processToolCalls, hl, hL]⟩
          · rcases hf : entry.func args with emsg | r
            · exact ⟨[], by simp [processToolCalls, hl, hf, hL]⟩
            · obtain ⟨t, ht⟩ := ih (hist ++ [toolMessage r])
              exact ⟨toolMessage r :: t, by
                simp only [processToolCalls, hl, hf]
                rw [ht]; simp⟩
        · obtain ⟨s, hs⟩ := processToolCalls_cons_wf e hL tc hw rest hist
          obtain ⟨t, ht⟩ := ih (hist ++ [toolMessage s])
          exact ⟨toolMessage s :: t, by rw [hs, ht]; simp⟩

/-- With a logger installed, a structurally well-formed prefix of the
round's calls appends exactly one tool message per call, after which the
loop proceeds to the remaining calls. -/
theorem processToolCalls_append_wf (e : Engine) (he : e.loggerSet = true) :
    ∀ (good tail : List ToolCall),
      (∀ tc ∈ good, wfToolCall tc = true) → ∀ hist : List Message,
      ∃ ts : List Message, ts.length = good.length
        ∧ (∀ t ∈ ts, t.role = some "tool")
        ∧ processToolCalls e (good ++ tail) hist =
            processToolCalls e tail (hist ++ ts) := by
  intro good
  induction good with
  | nil => intro tail _ hist; exact ⟨[], rfl, by simp, by simp⟩
  | cons tc g ih =>
      intro tail hwf hist
      obtain ⟨s, hs⟩ := processToolCalls_cons_wf e he tc (hwf tc (by simp))
        (g ++ tail) hist
      obtain ⟨ts, hlen, hroles, heq⟩ :=
        ih tail (fun x hx => hwf x (by simp [hx])) (hist ++ [toolMessage s])
      refine ⟨toolMessage s :: ts, by simp [hlen], ?_, ?_⟩
      · intro t ht
        rcases List.mem_cons.mp ht with h | h
        · rw [h]; rfl
        · exact hroles t h
      · rw [List.cons_append, hs, heq]
        simp

/-- With a logger installed, a round whose calls are all well-formed
appends exactly one tool message per call and finishes without raising. -/
theorem processToolCalls_all_wf (e : Engine) (he : e.loggerSet = true)
    (tcs : List ToolCall) (hwf : ∀ tc ∈ tcs, wfToolCall tc = true)
    (hist : List Message) :
    ∃ ts : List Message, ts.length = tcs.length
      ∧ (∀ t ∈ ts, t.role = some "tool")
      ∧ processToolCalls e tcs hist = (hist ++ ts, none) := by
  obtain ⟨ts, h1, h2, h3⟩ := processToolCalls_append_wf e he tcs [] hwf hist
  refine ⟨ts, h1, h2, ?_⟩
  rw [List.append_nil] at h3
  rw [h3]; rfl

/-! ### Helper lemmas about the round loop -/

/-- The round loop only ever appends to the history it is given. -/
theorem runRounds_hist_prefix (e : Engine) (b : Backend) :
    ∀ (fuel calls : Nat) (hist : List Message),
      ∃ t, (runRounds e b fuel calls hist).2.1 = hist ++ t := by
  intro fuel
  induction fuel with
  | zero => intro calls hist; exact ⟨[], by simp [runRounds]⟩
  | succ f ih =>
      intro calls hist
      rcases hb : b calls with exc | data
      · exact ⟨[], by simp [runRounds, hb]⟩
      · simp only [runRounds, hb]
        rcases hE : ((data.message.getD emptyMessage).tool_calls.getD []).isEmpty
          with _ | _
        · simp only [hE, Bool.false_eq_true, if_false]
          obtain ⟨t1, ht1⟩ := processToolCalls_fst_prefix e
            ((data.message.getD emptyMessage).tool_calls.getD [])
            (hist ++ [data.message.getD emptyMessage])
          rcases hp : processToolCalls e ((data.message.getD emptyMessage).tool_calls.getD [])
              (hist ++ [data.message.getD emptyMessage]) with ⟨hist2, oe⟩
          rw [hp] at ht1
          dsimp only at ht1
          rcases oe with _ | exc
          · obtain ⟨t2, ht2⟩ := ih (calls + 1) hist2
            refine ⟨data.message.getD emptyMessage :: (t1 ++ t2), ?_⟩
            show (runRounds e b f (calls + 1) hist2).2.1 = _
            rw [ht2, ht1]; simp
          · refine ⟨data.message.getD emptyMessage :: t1, ?_⟩
            show hist2 = _
            rw [ht1]; simp
        · exact ⟨[data.message.getD emptyMessage], by simp [hE]⟩

/-- The round loop makes at most `fuel` more backend calls. -/
theorem runRounds_calls_le (e : Engine) (b : Backend) :
    ∀ (fuel calls : Nat) (hist : List Message),
      (runRounds e b fuel calls hist).2.2 ≤ calls + fuel := by
  intro fuel
  induction fuel with
  | zero => intro calls hist; simp [runRounds]
  | succ f ih =>
      intro calls hist
      rcases hb : b calls with exc | data
      · simp [runRounds, hb]
      · simp only [runRounds, hb]
        rcases hE : ((data.message.getD emptyMessage).tool_calls.getD []).isEmpty
          with _ | _
        · simp only [hE, Bool.false_eq_true, if_false]
          rcases hp : processToolCalls e ((data.message.getD emptyMessage).tool_calls.getD [])
              (hist ++ [data.message.getD emptyMessage]) with ⟨hist2, oe⟩
          rcases oe with _ | exc
          · show (runRounds e b f (calls + 1) hist2).2.2 ≤ calls + (f + 1)
            have := ih (calls + 1) hist2
            omega
          · show calls + 1 ≤ calls + (f + 1)
            omega
        · simp only [hE, if_true]
          show calls + 1 ≤ calls + (f + 1)
          omega

/-- With a logger installed, a run of rounds that each reply with
non-empty, well-formed tool calls exhausts the fuel: the loop completes
every round, appending per round the raw backend message followed by at
least one tool message, and makes exactly `fuel` backend calls. -/
theorem runRounds_all_toolRounds (e : Engine) (b : Backend)
    (he : e.loggerSet = true) :
    ∀ (fuel calls : Nat) (hist : List Message),
      (∀ i, calls ≤ i → i < calls + fuel → toolRound (b i) = true) →
      ∃ blocks : List (List Message),
        blocks.length = fuel
        ∧ (∀ blk ∈ blocks, ∃ m ts, blk = m :: ts ∧ ts ≠ [] ∧
             ∀ t ∈ ts, t.role = some "tool")
        ∧ runRounds e b fuel calls hist =
            (.exhausted, hist ++ blocks.flatten, calls + fuel) := by
  intro fuel
  induction fuel with
  | zero => intro calls hist _; exact ⟨[], rfl, by simp, by simp [runRounds]⟩
  | succ f ih =>
      intro calls hist hr
      have h0 : toolRound (b calls) = true := hr calls (Nat.le_refl _) (by omega)
      rcases hb : b calls with exc | data
      · rw [hb] at h0; simp [toolRound] at h0
      · rw [hb] at h0
        simp only [toolRound, Bool.and_eq_true, Bool.not_eq_true',
          List.all_eq_true] at h0
        obtain ⟨hne, hwf⟩ := h0
        obtain ⟨ts, hlen, hroles, hpe⟩ := processToolCalls_all_wf e he
          ((data.message.getD emptyMessage).tool_calls.getD []) hwf
          (hist ++ [data.message.getD emptyMessage])
        obtain ⟨blocks, hbl, hbs, hrun⟩ := ih (calls + 1)
          ((hist ++ [data.message.getD emptyMessage]) ++ ts)
          (fun i h1 h2 => hr i (by omega) (by omega))
        refine ⟨(data.message.getD emptyMessage :: ts) :: blocks, by simp [hbl], ?_, ?_⟩
        · intro blk hblk
          rcases List.mem_cons.mp hblk with h | h
          · exact ⟨data.message.getD emptyMessage, ts, h, by
              intro hts
              rw [hts] at hlen
              have : ((data.message.getD emptyMessage).tool_calls.getD []) = [] :=
                List.eq_nil_of_length_eq_zero hlen.symm
              rw [this] at hne
              simp at hne, hroles⟩
          · exact hbs blk h
        · simp only [runRounds, hb, hne, Bool.false_eq_true, if_false, hpe]
          rw [hrun]
          have h3 : calls + 1 + f = calls + (f + 1) := by omega
          rw [h3]
          simp [List.append_assoc]

/-! ### Helper lemmas about `get_response` and the store operations -/

/-- The string `get_response` returns is the outcome text of the round
loop run on the seeded history plus the user message. -/
theorem get_response_fst (e : Engine) (input sid : String) (b : Backend) :
    (get_response e input sid b).1 =
      outcomeText e (runRounds e b 5 0
        (((e.conversations sid).getD [systemMessage e.system_prompt])
          ++ [userMessage input])).1 := rfl

/-- `get_response` writes the loop's final history back under the target
session and leaves every other session untouched. -/
theorem get_response_conversations (e : Engine) (input sid s : String)
    (b : Backend) :
    (get_response e input sid b).2.conversations s =
      if s = sid then
        some (runRounds e b 5 0
          (((e.conversations sid).getD [systemMessage e.system_prompt])
            ++ [userMessage input])).2.1
      else e.conversations s := rfl

/-- `get_response` leaves every engine field except the conversation store
unchanged. -/
theorem get_response_frame (e : Engine) (input sid : String) (b : Backend) :
    (get_response e input sid b).2.system_prompt = e.system_prompt
    ∧ (get_response e input sid b).2.tools = e.tools
    ∧ (get_response e input sid b).2.model = e.model
    ∧ (get_response e input sid b).2.ollama_base_url = e.ollama_base_url
    ∧ (get_response e input sid b).2.loggerSet = e.loggerSet :=
  ⟨rfl, rfl, rfl, rfl, rfl⟩

/-- The target session's stored history after `get_response` is the seeded
history, then the user message, then whatever the loop appended. -/
theorem get_response_appends (e : Engine) (input sid : String) (b : Backend) :
    ∃ t, (get_response e input sid b).2.conversations sid =
      some (((e.conversations sid).getD [systemMessage e.system_prompt])
        ++ [userMessage input] ++ t) := by
  obtain ⟨t, ht⟩ := runRounds_hist_prefix e b 5 0
    (((e.conversations sid).getD [systemMessage e.system_prompt])
      ++ [userMessage input])
  exact ⟨t, by rw [get_response_conversations, if_pos rfl, ht]⟩

/-- Looking a name up after a dict insert: the inserted name maps to the
new entry, every other name is unaffected (last write wins). -/
theorem toolsLookup_dictInsert (l : List (String × ToolEntry)) (n : String)
    (t : ToolEntry) (m : String) :
    toolsLookup (dictInsert l n t) m =
      if m = n then some t else toolsLookup l m := by
  induction l with
  | nil =>
      simp only [dictInsert, toolsLookup]
      by_cases h : n = m
      · rw [if_pos h, if_pos h.symm]
      · rw [if_neg h, if_neg (fun hh => h hh.symm)]
  | cons kv rest ih =>
      obtain ⟨k, v⟩ := kv
      simp only [dictInsert]
      by_cases hkn : k = n
      · rw [if_pos hkn]
        simp only [toolsLookup]
        by_cases hkm : k = m
        · rw [if_pos hkm, if_pos (hkn ▸ hkm.symm)]
        · rw [if_neg hkm, if_neg hkm,
            if_neg (fun hh : m = n => hkm (hkn.symm ▸ hh.symm ▸ rfl))]
      · rw [if_neg hkn]
        simp only [toolsLookup]
        by_cases hkm : k = m
        · rw [if_pos hkm, if_pos hkm,
            if_neg (fun hh : m = n => hkn (hkm.symm ▸ hh ▸ rfl))]
        · rw [if_neg hkm, if_neg hkm, ih]

/-- Every stored history starts with the engine's system message. -/
def goodHistories (e : Engine) (prompt : String) : Prop :=
  ∀ sid h, e.conversations sid = some h → ∃ t, h = systemMessage prompt :: t

/-- Each operation keeps the system prompt and the first-message invariant. -/
theorem applyOp_preserves (e : Engine) (prompt : String) (op : Op)
    (hp : e.system_prompt = prompt) (hg : goodHistories e prompt) :
    (applyOp e op).system_prompt = prompt
    ∧ goodHistories (applyOp e op) prompt := by
  cases op with
  | turn sid input b =>
      refine ⟨hp, ?_⟩
      intro s h hh
      rw [applyOp, get_response_conversations] at hh
      by_cases hs : s = sid
      · rw [if_pos hs] at hh
        obtain ⟨t, ht⟩ := runRounds_hist_prefix e b 5 0
          (((e.conversations sid).getD [systemMessage e.system_prompt])
            ++ [userMessage input])
        rw [ht] at hh
        have hh2 := Option.some.inj hh
        cases hcv : e.conversations sid with
        | some h0 =>
            obtain ⟨t0, ht0⟩ := hg sid h0 hcv
            rw [hcv] at hh2
            simp only [Option.getD_some, ht0] at hh2
            exact ⟨t0 ++ [userMessage input] ++ t, by
              rw [← hh2]; simp [List.append_assoc]⟩
        | none =>
            rw [hcv] at hh2
            simp only [Option.getD_none] at hh2
            exact ⟨[userMessage input] ++ t, by
              rw [← hh2, hp]; simp [List.append_assoc]⟩
      · rw [if_neg hs] at hh
        exact hg s h hh
  | clear sid =>
      rw [applyOp, clear_conversation]
      cases hcv : e.conversations sid with
      | some h0 =>
          refine ⟨hp, ?_⟩
          intro s h hh
          simp only at hh
          by_cases hs : s = sid
          · rw [if_pos hs] at hh
            exact ⟨[], by rw [← Option.some.inj hh, hp]⟩
          · rw [if_neg hs] at hh
            exact hg s h hh
      | none => exact ⟨hp, hg⟩
  | register n t => exact ⟨hp, hg⟩

/-- Non-`clear` operations only append to an existing session's history. -/
theorem applyOp_append_only (e : Engine) (op : Op) (sid : String)
    (h : List Message) (hc : clears sid op = false)
    (hh : e.conversations sid = some h) :
    ∃ t, (applyOp e op).conversations sid = some (h ++ t) := by
  cases op with
  | turn sid' input b =>
      by_cases hs : sid = sid'
      · subst hs
        obtain ⟨t, ht⟩ := get_response_appends e input sid b
        rw [hh] at ht
        simp only [Option.getD_some] at ht
        exact ⟨[userMessage input] ++ t, by
          rw [applyOp, ht]; simp [List.append_assoc]⟩
      · exact ⟨[], by
          rw [applyOp, get_response_conversations, if_neg hs, List.append_nil]
          exact hh⟩
  | clear s =>
      have hns : ¬(s = sid) := by simpa [clears] using hc
      rw [applyOp, clear_conversation]
      cases hcv : e.conversations s with
      | some h0 =>
          exact ⟨[], by
            simp only
            rw [if_neg (fun hh2 : sid = s => hns hh2.symm), List.append_nil]
            exact hh⟩
      | none => exact ⟨[], by rw [List.append_nil]; exact hh⟩
  | register n t => exact ⟨[], by rw [List.append_nil]; exact hh⟩

/-- A sequence of operations keeps the prompt and the invariant. -/
theorem applyOps_preserves (prompt : String) :
    ∀ (ops : List Op) (e : Engine), e.system_prompt = prompt →
      goodHistories e prompt →
      (applyOps e ops).system_prompt = prompt
      ∧ goodHistories (applyOps e ops) prompt := by
  intro ops
  induction ops with
  | nil => intro e hp hg; exact ⟨hp, hg⟩
  | cons op rest ih =>
      intro e hp hg
      obtain ⟨hp2, hg2⟩ := applyOp_preserves e prompt op hp hg
      exact ih (applyOp e op) hp2 hg2

/-! ### Concrete engines, tools and backend scripts used by the claims -/

/-- The engine after `init_routes` has installed a logger. -/
def loggedEngine : Engine := { initEngine with loggerSet := true }

/-- A backend that always answers with content and no tool calls. -/
def hiBackend : Backend := fun _ =>
  .ok ⟨some ⟨some "assistant", some "Hi", some []⟩⟩

/-- A backend that requests one (unregistered, well-formed) tool call on
every round. -/
def c1Backend : Backend := fun _ =>
  .ok ⟨some ⟨some "assistant", some "", some [⟨some ⟨some "echo", some []⟩⟩]⟩⟩

/-- A backend whose later rounds (after an injected first-round failure)
answer with plain content. -/
def c2Rest : Backend := fun _ =>
  .ok ⟨some ⟨some "assistant", some "Hola!", some []⟩⟩

/-- First round: one call to the unregistered tool `foo`; afterwards a
final content reply. -/
def c3Backend : Backend := fun n =>
  if n = 0 then
    .ok ⟨some ⟨some "assistant", some "", some [⟨some ⟨some "foo", some []⟩⟩]⟩⟩
  else .ok ⟨some ⟨some "assistant", some "done", some []⟩⟩

/-- A registered tool whose callable raises (`str(e)` is `kaboom`). -/
def boomEntry : ToolEntry :=
  { description := "always raises", parameters := "none",
    func := fun _ => .error "kaboom" }

/-- First round: one call to the registered raising tool `boom`;
afterwards a final content reply. -/
def c4Backend : Backend := fun n =>
  if n = 0 then
    .ok ⟨some ⟨some "assistant", some "", some [⟨some ⟨some "boom", some []⟩⟩]⟩⟩
  else .ok ⟨some ⟨some "assistant", some "ok", some []⟩⟩

/-- A registration used to observe overwriting. -/
def entryOne : ToolEntry :=
  { description := "first", parameters := "none", func := fun _ => .ok "1" }

/-- A second registration under the same name. -/
def entryTwo : ToolEntry :=
  { description := "second", parameters := "none", func := fun _ => .ok "2" }

/-- An engine with one existing session `"a"`. -/
def c8Engine : Engine :=
  { initEngine with conversations :=
      fun s => if s = "a" then some [systemMessage defaultSystemPrompt] else none }

/-- First round: a well-formed call, then a malformed call (missing
`"function"`), then another call that should never be dispatched. -/
def c10Backend : Backend := fun _ =>
  .ok ⟨some ⟨some "assistant", some "",
    some [⟨some ⟨some "good1", some []⟩⟩, ⟨none⟩,
          ⟨some ⟨some "good2", some []⟩⟩]⟩⟩

/-- The malformed reply message `c10Backend` sends. -/
def c10Message : Message :=
  ⟨some "assistant", some "",
   some [⟨some ⟨some "good1", some []⟩⟩, ⟨none⟩,
         ⟨some ⟨some "good2", some []⟩⟩]⟩

/-! ### The claims -/

/-- C1: `get_response` performs at most 5 backend-call rounds for every
engine, session and input; and whenever a logger is installed and all 5
rounds reply with non-empty (structurally well-formed) tool calls on a
fresh session, it returns the iteration-limit sentinel and the stored
history is 1 system + 1 user message followed by 5 blocks, each a raw
assistant message plus at least one tool-result message, regardless of how
many tool calls each round carries. -/
theorem C1_round_bound_and_iteration_limit :
    (∀ (e : Engine) (input sid : String) (b : Backend),
        backendCalls e input sid b ≤ 5)
    ∧ ∀ (e : Engine) (input sid : String) (b : Backend),
        e.loggerSet = true →
        e.conversations sid = none →
        (∀ i, i < 5 → toolRound (b i) = true) →
        (get_response e input sid b).1 = iterationLimitText
        ∧ ∃ blocks : List (List Message),
            blocks.length = 5
            ∧ (∀ blk ∈ blocks, ∃ m ts, blk = m :: ts ∧ ts ≠ [] ∧
                 ∀ t ∈ ts, t.role = some "tool")
            ∧ (get_response e input sid b).2.conversations sid =
                some ([systemMessage e.system_prompt, userMessage input]
                  ++ blocks.flatten) := by
  constructor
  · intro e input sid b
    have h := runRounds_calls_le e b 5 0
      (((e.conversations sid).getD [systemMessage e.system_prompt])
        ++ [userMessage input])
    simpa [backendCalls] using h
  · intro e input sid b hL hc hr
    obtain ⟨blocks, h1, h2, h3⟩ := runRounds_all_toolRounds e b hL 5 0
      (((e.conversations sid).getD [systemMessage e.system_prompt])
        ++ [userMessage input])
      (fun i _ h2 => hr i (by omega))
    refine ⟨?_, blocks, h1, h2, ?_⟩
    · rw [get_response_fst, h3]; rfl
    · rw [get_response_conversations, if_pos rfl, h3, hc]
      simp

/-- C1 witness: a logger-equipped fresh engine against a backend that
requests a tool on all five rounds ends in the sentinel. -/
theorem C1_round_bound_and_iteration_limit_witness :
    (get_response loggedEngine "x" "s1w" c1Backend).1 = iterationLimitText :=
  (C1_round_bound_and_iteration_limit.2 loggedEngine "x" "s1w" c1Backend
    rfl rfl (by decide)).1

/-- C2: a backend exception on a round's call makes `get_response` return
(never raise) the classified text of the `except` chain — connection →
cannot-reach, timeout → too-slow, HTTP 404 → model-not-found, HTTP 405 →
wrong-endpoint, other HTTP status → `Error HTTP <status>: <body>`,
residual request-level errors and all other exceptions → one of the two
generic texts — while the history keeps the user message appended in step
2 but gains no assistant message for the failed round. -/
theorem C2_backend_failure_classification :
    ∀ (e : Engine) (input sid : String) (exc : Exc) (rest : Backend),
      (get_response e input sid
          (fun n => if n = 0 then Except.error exc else rest n)).1
        = classify e exc
      ∧ (get_response e input sid
          (fun n => if n = 0 then Except.error exc else rest n)).2.conversations sid
        = some (((e.conversations sid).getD [systemMessage e.system_prompt])
            ++ [userMessage input])
      ∧ classify e .connectionError =
          "❌ No puc connectar amb Ollama a " ++ e.ollama_base_url ++
          ". Verifica que Ollama està executant-se i que la URL és correcta."
      ∧ classify e .timeoutError =
          "⏱️ El servidor Ollama està trigant massa. Pot ser que el model sigui massa gran o el servidor estigui ocupat."
      ∧ (∀ body, classify e (.httpError 404 body) =
          "❌ Model '" ++ e.model ++ "' no trobat. Assegura't que el model està descarregat a Ollama.")
      ∧ (∀ body, classify e (.httpError 405 body) =
          "❌ Error 405: Endpoint incorrecte. Verifica que Ollama està actualitzat i suporta /api/chat")
      ∧ (∀ status body, status ≠ 404 → status ≠ 405 →
          classify e (.httpError status body) =
            "Error HTTP " ++ toString status ++ ": " ++ body)
      ∧ classify e .requestException =
          "Ho sento, no puc connectar amb el servidor Ollama. Verifica la configuració."
      ∧ classify e .keyError = unexpectedErrorText
      ∧ classify e .attributeError = unexpectedErrorText := by
  intro e input sid exc rest
  refine ⟨rfl, ?_, rfl, rfl, fun _ => rfl, fun _ => rfl, ?_, rfl, rfl, rfl⟩
  · rw [get_response_conversations, if_pos rfl]
    rfl
  · intro status body h4 h5
    simp [classify, h4, h5]

/-- C2 witness: a first-round connection failure yields the classified
connection text, and a 500 reply the status-and-body text. -/
theorem C2_backend_failure_classification_witness :
    (get_response initEngine "q" "s2w"
        (fun n => if n = 0 then Except.error Exc.connectionError else c2Rest n)).1
      = classify initEngine Exc.connectionError
    ∧ classify initEngine (Exc.httpError 500 "boom") = "Error HTTP 500: boom" :=
  ⟨(C2_backend_failure_classification initEngine "q" "s2w"
      Exc.connectionError c2Rest).1,
   ((C2_backend_failure_classification initEngine "q" "s2w"
      Exc.connectionError c2Rest).2.2.2.2.2.2.1 500 "boom"
      (by decide) (by decide)).trans (by decide)⟩

/-- C3 (code bug): with a logger installed, a round requesting the
unregistered tool `foo` appends exactly one tool-result error message and
the round continues to the next backend call; but at the failing input —
the module logger still unset, as it is until `init_routes` runs — the
unguarded `logger.warning` on the not-found branch (source line 159)
raises `AttributeError`, the turn aborts with the generic
unexpected-error text, and no tool-result message is appended. -/
theorem C3_unknown_tool_dispatch_logger_dependent :
    ((get_response loggedEngine "hola" "s3" c3Backend).1 = "done"
      ∧ (get_response loggedEngine "hola" "s3" c3Backend).2.conversations "s3" =
          some [systemMessage defaultSystemPrompt, userMessage "hola",
                ⟨some "assistant", some "", some [⟨some ⟨some "foo", some []⟩⟩]⟩,
                toolMessage "Error: Tool 'foo' not found.",
                ⟨some "assistant", some "done", some []⟩])
    ∧ ((get_response initEngine "hola" "s3" c3Backend).1 = unexpectedErrorText
      ∧ (get_response initEngine "hola" "s3" c3Backend).2.conversations "s3" =
          some [systemMessage defaultSystemPrompt, userMessage "hola",
                ⟨some "assistant", some "", some [⟨some ⟨some "foo", some []⟩⟩]⟩]) :=
  ⟨⟨rfl, rfl⟩, rfl, rfl⟩

/-- C4 (code bug): with a logger installed, a registered tool whose
callable raises yields exactly one tool-result error message and the round
continues; but at the failing input — logger unset — the unguarded
`logger.error` in the tool `except` handler (source line 146) raises
`AttributeError`, the turn aborts with the generic unexpected-error text,
and no tool-result message is appended. -/
theorem C4_raising_tool_dispatch_logger_dependent :
    ((get_response (register_tool loggedEngine "boom" boomEntry)
        "hola" "s4" c4Backend).1 = "ok"
      ∧ (get_response (register_tool loggedEngine "boom" boomEntry)
          "hola" "s4" c4Backend).2.conversations "s4" =
          some [systemMessage defaultSystemPrompt, userMessage "hola",
                ⟨some "assistant", some "", some [⟨some ⟨some "boom", some []⟩⟩]⟩,
                toolMessage "Error executing tool boom: kaboom",
                ⟨some "assistant", some "ok", some []⟩])
    ∧ ((get_response (register_tool initEngine "boom" boomEntry)
        "hola" "s4" c4Backend).1 = unexpectedErrorText
      ∧ (get_response (register_tool initEngine "boom" boomEntry)
          "hola" "s4" c4Backend).2.conversations "s4" =
          some [systemMessage defaultSystemPrompt, userMessage "hola",
                ⟨some "assistant", some "", some [⟨some ⟨some "boom", some []⟩⟩]⟩]) :=
  ⟨⟨rfl, rfl⟩, rfl, rfl⟩

/-- C5 counterexample: registering `"t"` twice is a silent overwrite — the
second entry replaces the first in place and nothing fails, refuting that
`register_tool` rejects a duplicate name with `DuplicateToolError`. -/
theorem C5_counterexample_silent_overwrite :
    (toolsLookup (register_tool (register_tool initEngine "t" entryOne)
        "t" entryTwo).tools "t").map ToolEntry.description = some "second"
    ∧ (register_tool (register_tool initEngine "t" entryOne)
        "t" entryTwo).tools.length = 1 := ⟨rfl, rfl⟩

/-- C5 amended: `register_tool` never fails; it silently replaces any
existing registration under the same name (last write wins) and leaves the
rest of the engine unchanged. -/
theorem C5_amended_register_tool_overwrites :
    ∀ (e : Engine) (n : String) (t : ToolEntry) (m : String),
      toolsLookup (register_tool e n t).tools m =
        (if m = n then some t else toolsLookup e.tools m)
      ∧ (register_tool e n t).conversations = e.conversations
      ∧ (register_tool e n t).system_prompt = e.system_prompt :=
  fun e n t m => ⟨toolsLookup_dictInsert e.tools n t m, rfl, rfl⟩

/-- C6 counterexample: a decoded reply with no `message` key is treated as
a successful empty reply — `get_response` returns the empty string and
appends the empty message dict as the assistant turn — refuting that it
fails with a `BackendProtocolError`. -/
theorem C6_counterexample_missing_message_field :
    (get_response initEngine "hola" "s6" (fun _ => Except.ok ⟨none⟩)).1 = ""
    ∧ (get_response initEngine "hola" "s6"
        (fun _ => Except.ok ⟨none⟩)).2.conversations "s6" =
        some [systemMessage defaultSystemPrompt, userMessage "hola", emptyMessage] :=
  ⟨rfl, rfl⟩

/-- C6 amended: when the decoded body lacks the `message` field, the
defaults of `data.get("message", {})` make it a successful empty reply:
the empty message is appended as the assistant turn and the empty string
is returned as the final answer. -/
theorem C6_amended_missing_message_empty_reply :
    ∀ (e : Engine) (input sid : String) (rest : Backend),
      (get_response e input sid
          (fun n => if n = 0 then Except.ok ⟨none⟩ else rest n)).1 = ""
      ∧ (get_response e input sid
          (fun n => if n = 0 then Except.ok ⟨none⟩ else rest n)).2.conversations sid =
          some ((((e.conversations sid).getD [systemMessage e.system_prompt])
            ++ [userMessage input]) ++ [emptyMessage]) := by
  intro e input sid rest
  refine ⟨rfl, ?_⟩
  rw [get_response_conversations, if_pos rfl]
  rfl

/-- C7: from any store whose histories all start with the system message,
any sequence of turns, clears and registrations keeps the system prompt
and keeps every stored history starting with that system message (so a
turn on an existing session never seeds a second system message nor resets
the first); and every non-`clear` operation only appends to an existing
session's history. -/
theorem C7_system_first_and_append_only :
    (∀ (e0 : Engine) (ops : List Op),
        goodHistories e0 e0.system_prompt →
        (applyOps e0 ops).system_prompt = e0.system_prompt
        ∧ goodHistories (applyOps e0 ops) e0.system_prompt)
    ∧ ∀ (e : Engine) (op : Op) (sid : String) (h : List Message),
        clears sid op = false →
        e.conversations sid = some h →
        ∃ t, (applyOp e op).conversations sid = some (h ++ t) :=
  ⟨fun e0 ops hg => applyOps_preserves e0.system_prompt ops e0 rfl hg,
   applyOp_append_only⟩

/-- C7 witness: the invariant applied after a concrete operation sequence,
and append-only behaviour observed on a concrete existing session. -/
theorem C7_system_first_and_append_only_witness :
    (applyOps initEngine [Op.clear "x"]).system_prompt = initEngine.system_prompt
    ∧ ((applyOp c8Engine (Op.register "r" entryOne)).conversations "a").isSome = true :=
  ⟨(C7_system_first_and_append_only.1 initEngine [Op.clear "x"]
      (fun _ _ hh => Option.noConfusion hh)).1,
   by
     obtain ⟨t, ht⟩ := C7_system_first_and_append_only.2 c8Engine
       (Op.register "r" entryOne) "a" [systemMessage defaultSystemPrompt] rfl rfl
     rw [ht]; rfl⟩

/-- C8: `clear_conversation` on an existing session returns `true` and
resets exactly that session's history to the single system message,
leaving other sessions alone; on a non-existent session it returns `false`
and leaves the whole engine state unchanged. -/
theorem C8_clear_conversation_spec :
    ∀ (e : Engine) (sid : String),
      (∀ h, e.conversations sid = some h →
          (clear_conversation e sid).1 = true
          ∧ (clear_conversation e sid).2.conversations sid =
              some [systemMessage e.system_prompt]
          ∧ ∀ s, s ≠ sid →
              (clear_conversation e sid).2.conversations s = e.conversations s)
      ∧ (e.conversations sid = none → clear_conversation e sid = (false, e)) := by
  intro e sid
  constructor
  · intro h hh
    have hc : clear_conversation e sid =
        (true, { e with conversations :=
            fun s => if s = sid then some [systemMessage e.system_prompt]
                     else e.conversations s }) := by
      unfold clear_conversation
      rw [hh]
    refine ⟨by rw [hc], ?_, ?_⟩
    · rw [hc]
      show (if sid = sid then some [systemMessage e.system_prompt]
            else e.conversations sid) = some [systemMessage e.system_prompt]
      rw [if_pos rfl]
    · intro s hs
      rw [hc]
      show (if s = sid then some [systemMessage e.system_prompt]
            else e.conversations s) = e.conversations s
      rw [if_neg hs]
  · intro hh
    unfold clear_conversation
    rw [hh]

/-- C8 witness: clearing the existing session `"a"` returns `true`;
clearing the absent session `"b"` returns `false` and changes nothing. -/
theorem C8_clear_conversation_spec_witness :
    (clear_conversation c8Engine "a").1 = true
    ∧ clear_conversation c8Engine "b" = (false, c8Engine) :=
  ⟨((C8_clear_conversation_spec c8Engine "a").1
      [systemMessage defaultSystemPrompt] rfl).1,
   (C8_clear_conversation_spec c8Engine "b").2 rfl⟩

/-- C9: on a fresh session with no tools registered, a backend reply with
content `"Hi"` and empty `tool_calls` makes `get_response` return `"Hi"`
with exactly three stored messages: system, user, assistant. -/
theorem C9_plain_reply_three_messages :
    (get_response initEngine "Hello" "s1" hiBackend).1 = "Hi"
    ∧ (get_response initEngine "Hello" "s1" hiBackend).2.conversations "s1" =
        some [systemMessage defaultSystemPrompt, userMessage "Hello",
              ⟨some "assistant", some "Hi", some []⟩] := ⟨rfl, rfl⟩

/-- C10: when a round's tool-call list has a structurally malformed entry
after a well-formed prefix, the unguarded `tool_call["function"][…]`
indexing raises `KeyError`, caught only by the outermost generic handler:
the whole turn returns the generic unexpected-error text, the history
gains only the assistant message plus one tool-result per well-formed
prefix entry, and the remaining calls of the round are not dispatched. -/
theorem C10_malformed_tool_call_aborts_turn :
    ∀ (e : Engine) (input sid : String) (b : Backend) (m : Message)
      (good : List ToolCall) (bad : ToolCall) (badRest : List ToolCall),
      e.loggerSet = true →
      b 0 = .ok ⟨some m⟩ →
      m.tool_calls = some (good ++ bad :: badRest) →
      (∀ tc ∈ good, wfToolCall tc = true) →
      wfToolCall bad = false →
      (get_response e input sid b).1 = unexpectedErrorText
      ∧ ∃ ts : List Message, ts.length = good.length
          ∧ (∀ t ∈ ts, t.role = some "tool")
          ∧ (get_response e input sid b).2.conversations sid =
              some ((((e.conversations sid).getD [systemMessage e.system_prompt])
                ++ [userMessage input, m]) ++ ts) := by
  intro e input sid b m good bad badRest hL hb htc hwf hbad
  obtain ⟨ts, hlen, hroles, hpe⟩ := processToolCalls_append_wf e hL good
    (bad :: badRest) hwf
    ((((e.conversations sid).getD [systemMessage e.system_prompt])
      ++ [userMessage input]) ++ [m])
  rw [processToolCalls_cons_notwf e bad hbad badRest] at hpe
  have hne : (good ++ bad :: badRest).isEmpty = false := by cases good <;> rfl
  have hrun : runRounds e b 5 0
      (((e.conversations sid).getD [systemMessage e.system_prompt])
        ++ [userMessage input]) =
      (.raised .keyError,
       ((((e.conversations sid).getD [systemMessage e.system_prompt])
         ++ [userMessage input]) ++ [m]) ++ ts, 1) := by
    simp only [runRounds, hb, Option.getD_some, htc, hne, Bool.false_eq_true,
      if_false]
    rw [hpe]
  refine ⟨?_, ts, hlen, hroles, ?_⟩
  · rw [get_response_fst, hrun]; rfl
  · rw [get_response_conversations, if_pos rfl, hrun]
    simp [List.append_assoc]

/-- C10 witness: the concrete malformed round — a good call, then an entry
missing its `function` object, then a further call — aborts the turn with
the generic text. -/
theorem C10_malformed_tool_call_aborts_turn_witness :
    (get_response loggedEngine "x" "s10" c10Backend).1 = unexpectedErrorText :=
  (C10_malformed_tool_call_aborts_turn loggedEngine "x" "s10" c10Backend
    c10Message [⟨some ⟨some "good1", some []⟩⟩] ⟨none⟩
    [⟨some ⟨some "good2", some []⟩⟩] rfl rfl rfl (by decide) rfl).1

end LLMEngine
